import Mathlib

/-!
Verification of the WebSocket action bar component
(`packages/insomnia/src/ui/components/websockets/action-bar.tsx`).

The component is shallowly embedded as pure Lean functions:

* `handleSubmit` embeds the `handleSubmit` callback of `WebSocketActionBar`.
  Its external collaborators (`models.cookieJar.getOrCreateForParentId` and
  `tryToInterpolateRequestOrShowRenderErrorModal`) are passed in as function
  parameters; the side effects of the source (the dispatched
  `window.main.webSocket.close` / `fetcher.submit` connect command, and the
  render-error modal) are materialised in the returned `SubmitResult`.
* `actionBarView` embeds the JSX returned by `WebSocketActionBar`
  (the observable, non-styling attributes).
* `handleUrlEdit` embeds the URL-editor change path: the component wires the
  editor's change handler to the `onChange` prop unchanged
  (`onChange={onChange}` on `OneLineEditor`), so an edit only forwards the
  raw new text and does nothing else.
-/

/-- A request query parameter, as in `request.parameters`
(`key`, `value`, `disabled`). Header entries have the same shape. -/
structure RequestParameter where
  key : String
  value : String
  disabled : Bool
  deriving DecidableEq, Repr

/-- A cookie jar (`models.cookieJar`): keyed by its parent (workspace) id,
with cookie contents kept abstractly as strings. -/
structure CookieJar where
  parentId : String
  cookies : List String
  deriving DecidableEq, Repr

/-- The `WebSocketRequest` fields read by the component:
`_id`, `url`, `headers`, `authentication`, `parameters`, and the
suppress-user-agent setting (the spec's data model lists it on the request). -/
structure Request where
  reqId : String
  url : String
  headers : List RequestParameter
  authentication : String
  parameters : List RequestParameter
  suppressUserAgent : Bool
  deriving DecidableEq, Repr

/-- The `payload` object literal built inside `handleSubmit` and handed to
`tryToInterpolateRequestOrShowRenderErrorModal`:
`{url, headers, authentication, parameters (enabled only), workspaceCookieJar}`.
Note: it has no suppress-user-agent field, exactly as in the source. -/
structure RenderPayload where
  url : String
  headers : List RequestParameter
  authentication : String
  parameters : List RequestParameter
  workspaceCookieJar : CookieJar
  deriving DecidableEq, Repr

/-- The value `rendered` returned by a successful interpolation: the rendered
payload fields plus the `suppressUserAgent` flag that the interpolation step
adds (it is read off `rendered`, not off the payload). -/
structure RenderedRequest where
  url : String
  headers : List RequestParameter
  authentication : String
  parameters : List RequestParameter
  workspaceCookieJar : CookieJar
  suppressUserAgent : Bool
  deriving DecidableEq, Repr

/-- The argument object of the `connect` callback (`ConnectActionParams`). -/
structure ConnectParams where
  url : String
  headers : List RequestParameter
  authentication : String
  cookieJar : CookieJar
  suppressUserAgent : Bool
  deriving DecidableEq, Repr

/-- A command dispatched by the component: either the connect action submitted
through the fetcher, or `window.main.webSocket.close({requestId})`. -/
inductive Command where
  | connect (params : ConnectParams)
  | close (requestId : String)
  deriving DecidableEq, Repr

/-- Whether a command is a connect command. -/
def Command.isConnect : Command → Bool
  | .connect _ => true
  | .close _ => false

/-- Whether a command is a close command. -/
def Command.isClose : Command → Bool
  | .connect _ => false
  | .close _ => true

/-- The observable outcome of one `handleSubmit` invocation: the dispatched
commands in order, how many render-error modals were shown, how many times
interpolation was invoked, plus the (unmodified) request and URL-field text,
recorded so that frame conditions can be stated. -/
structure SubmitResult where
  commands : List Command
  errorReports : Nat
  interpolationCalls : Nat
  request : Request
  urlField : String
  deriving DecidableEq, Repr

/-- The `payload` built in `handleSubmit`: the request's url, headers and
authentication verbatim, `request.parameters.filter(p => !p.disabled)`, and
the fetched workspace cookie jar. -/
def renderPayload (request : Request) (workspaceCookieJar : CookieJar) : RenderPayload :=
  { url := request.url
    headers := request.headers
    authentication := request.authentication
    parameters := request.parameters.filter (fun p => !p.disabled)
    workspaceCookieJar := workspaceCookieJar }

/-- Modelled from the spec: `buildQueryString(params) → string` lives in
`utils/url/querystring`, which is not part of the given sources. Per the
spec it is pure string composition turning parameters into a query string,
as in the example where `[{key: "id", value: "1"}]` yields `id=1`. -/
def buildQueryStringFromParams (params : List RequestParameter) : String :=
  String.intercalate "&" (params.map (fun p => p.key ++ "=" ++ p.value))

/-- Modelled from the spec: `joinUrlAndQueryString(url, qs) → string` lives in
`utils/url/querystring`, which is not part of the given sources. Per the
spec it is pure string composition joining the base URL with the query
string, as in the example `"wss://example.com/chat" + "id=1" =
"wss://example.com/chat?id=1"`. -/
def joinUrlAndQueryString (url qs : String) : String :=
  if qs = "" then url else url ++ "?" ++ qs

/-- The `handleSubmit` callback of `WebSocketActionBar`.

The collaborators are parameters:
`getOrCreateForParentId` for `models.cookieJar.getOrCreateForParentId`, and
`render` for `tryToInterpolateRequestOrShowRenderErrorModal` (which receives
the request, the environment id and the payload; `none` is the falsy return
after the function itself has shown the render-error modal, so the `none`
branch records one error report).

Source, line by line:
* `if (isOpen) { window.main.webSocket.close({ requestId: request._id }); return; }`
* `const workspaceCookieJar = await models.cookieJar.getOrCreateForParentId(workspaceId);`
* `const rendered = await tryToInterpolateRequestOrShowRenderErrorModal({request, environmentId, payload: {...}});`
* `rendered && connect({url: joinUrlAndQueryString(rendered.url, buildQueryStringFromParams(rendered.parameters)), headers: rendered.headers, authentication: rendered.authentication, cookieJar: rendered.workspaceCookieJar, suppressUserAgent: rendered.suppressUserAgent});` -/
def handleSubmit (isOpen : Bool) (request : Request) (environmentId workspaceId : String)
    (getOrCreateForParentId : String → CookieJar)
    (render : Request → String → RenderPayload → Option RenderedRequest)
    (urlField : String) : SubmitResult :=
  if isOpen then
    { commands := [Command.close request.reqId]
      errorReports := 0
      interpolationCalls := 0
      request := request
      urlField := urlField }
  else
    let workspaceCookieJar := getOrCreateForParentId workspaceId
    match render request environmentId (renderPayload request workspaceCookieJar) with
    | none =>
        { commands := []
          errorReports := 1
          interpolationCalls := 1
          request := request
          urlField := urlField }
    | some rendered =>
        { commands := [Command.connect
            { url := joinUrlAndQueryString rendered.url
                (buildQueryStringFromParams rendered.parameters)
              headers := rendered.headers
              authentication := rendered.authentication
              cookieJar := rendered.workspaceCookieJar
              suppressUserAgent := rendered.suppressUserAgent }]
          errorReports := 0
          interpolationCalls := 1
          request := request
          urlField := urlField }

/-- The outcome of one edit of the URL field. In the source the editor's
change handler is the `onChange` prop itself (`onChange={onChange}` on the
`OneLineEditor`), so an edit forwards the raw new text to the owner and
dispatches nothing, interpolates nothing, and reports nothing. -/
structure UrlEditResult where
  forwarded : String
  commands : List Command
  errorReports : Nat
  interpolationCalls : Nat
  deriving DecidableEq, Repr

/-- The URL-field edit path of `WebSocketActionBar`: the component passes its
`onChange` prop unchanged as the editor's change handler, so the edit's only
effect is forwarding the raw text. -/
def handleUrlEdit (newText : String) : UrlEditResult :=
  { forwarded := newText
    commands := []
    errorReports := 0
    interpolationCalls := 0 }

/-- The observable (non-styling) attributes of the JSX rendered by
`WebSocketActionBar`. -/
structure ActionBarView where
  showsWebSocketIcon : Bool
  showsConnectionStatus : Bool
  formAriaDisabled : Bool
  editorReadOnly : Bool
  editorDefaultValue : String
  connectButtonShown : Bool
  disconnectButtonShown : Bool
  deriving DecidableEq, Repr

/-- The render body of `WebSocketActionBar`:
`isOpen = readyState`, `isConnectingOrClosed = !readyState`,
the icon shows when `!isOpen`, the CONNECTED status when `isOpen`,
the form has `aria-disabled={isOpen}`, the editor has
`readOnly={readyState}` and `defaultValue={defaultValue}`, and the submit
button shows when `isConnectingOrClosed`, the disconnect button otherwise. -/
def actionBarView (readyState : Bool) (defaultValue : String) : ActionBarView :=
  let isOpen := readyState
  let isConnectingOrClosed := !readyState
  { showsWebSocketIcon := !isOpen
    showsConnectionStatus := isOpen
    formAriaDisabled := isOpen
    editorReadOnly := readyState
    editorDefaultValue := defaultValue
    connectButtonShown := isConnectingOrClosed
    disconnectButtonShown := !isConnectingOrClosed }

/-- Replace every occurrence of `pat` by `rep` in a character list, scanning
left to right; the fuel argument bounds the number of steps and is
instantiated with the input's length, which suffices since every step
consumes at least one character. -/
def replaceAux (pat rep : List Char) : Nat → List Char → List Char
  | 0, l => l
  | _ + 1, [] => []
  | fuel + 1, c :: cs =>
    if pat ≠ [] ∧ List.take pat.length (c :: cs) = pat then
      rep ++ replaceAux pat rep fuel (List.drop pat.length (c :: cs))
    else
      c :: replaceAux pat rep fuel cs

/-- Replace every occurrence of `pat` by `rep` in `s`. -/
def replaceChars (s pat rep : String) : String :=
  String.mk (replaceAux pat.data rep.data s.data.length s.data)

/-- Modelled from the spec: the interpolation of a single string against the
environment. `tryToInterpolateRequestOrShowRenderErrorModal` is not part of
the given sources; per the spec it performs "pure resolution of template
expressions", resolving each `\x7b\x7bname\x7d\x7d` tag to the environment's
value for `name`. -/
def interpolateString (env : List (String × String)) (s : String) : String :=
  env.foldl (fun acc kv => replaceChars acc ("\x7b\x7b" ++ kv.1 ++ "\x7d\x7d") kv.2) s

/-- Modelled from the spec: interpolation applied to one parameter (or header
entry): template expressions in its key and value are resolved; the disabled
flag is data, not a template. -/
def interpolateParam (env : List (String × String)) (p : RequestParameter) : RequestParameter :=
  { key := interpolateString env p.key
    value := interpolateString env p.value
    disabled := p.disabled }

/-- Modelled from the spec: interpolation applied to the cookie jar. The
source comment says "Render any nunjucks tags in the
url/headers/authentication settings/cookies", so template expressions in
cookie strings are resolved too. -/
def interpolateJar (env : List (String × String)) (jar : CookieJar) : CookieJar :=
  { parentId := jar.parentId
    cookies := jar.cookies.map (interpolateString env) }

/-- Modelled from the spec: the successful behaviour of
`tryToInterpolateRequestOrShowRenderErrorModal`, which is not part of the
given sources. It resolves template expressions in every payload field
(url, headers, authentication, parameters, cookie jar) against the
environment, and adds the request's suppress-user-agent setting to the
rendered result (the payload itself carries no such field). -/
def renderWithEnv (env : List (String × String)) (request : Request) (_environmentId : String)
    (payload : RenderPayload) : Option RenderedRequest :=
  some
    { url := interpolateString env payload.url
      headers := payload.headers.map (interpolateParam env)
      authentication := interpolateString env payload.authentication
      parameters := payload.parameters.map (interpolateParam env)
      workspaceCookieJar := interpolateJar env payload.workspaceCookieJar
      suppressUserAgent := request.suppressUserAgent }

/-- The URL carried by a connect command, if any. -/
def Command.urlOf : Command → Option String
  | .connect p => some p.url
  | .close _ => none

/-- The cookie jar carried by a connect command, if any. -/
def Command.cookieJarOf : Command → Option CookieJar
  | .connect p => some p.cookieJar
  | .close _ => none

/-- The suppress-user-agent flag carried by a connect command, if any. -/
def Command.suppressOf : Command → Option Bool
  | .connect p => some p.suppressUserAgent
  | .close _ => none

/-- The spec's running example request:
`{url: "wss://\x7b\x7bhost\x7d\x7d/chat", parameters: [{key: "id", value: "1",
disabled: false}, {key: "dbg", value: "1", disabled: true}]}`. -/
def exampleRequest : Request :=
  { reqId := "req_1"
    url := "wss://\x7b\x7bhost\x7d\x7d/chat"
    headers := []
    authentication := ""
    parameters :=
      [{ key := "id", value := "1", disabled := false },
       { key := "dbg", value := "1", disabled := true }]
    suppressUserAgent := false }

/-- The spec's running example environment: `host → "example.com"`. -/
def exampleEnv : List (String × String) := [("host", "example.com")]

/-- A fetch-or-create collaborator returning an empty jar for the workspace. -/
def exampleJarFn : String → CookieJar := fun wid => { parentId := wid, cookies := [] }

/-- The rendered request produced by `renderWithEnv exampleEnv` on the example
request's payload. -/
def exampleRendered : RenderedRequest :=
  { url := "wss://example.com/chat"
    headers := []
    authentication := ""
    parameters := [{ key := "id", value := "1", disabled := false }]
    workspaceCookieJar := { parentId := "ws_1", cookies := [] }
    suppressUserAgent := false }

/-- An interpolation collaborator that always fails (shows the render-error
modal and returns a falsy value). -/
def failRender : Request → String → RenderPayload → Option RenderedRequest :=
  fun _ _ _ => none

/-- An interpolation collaborator returning a fixed rendered request. -/
def constRender (r : RenderedRequest) : Request → String → RenderPayload → Option RenderedRequest :=
  fun _ _ _ => some r

/-- A fetch-or-create collaborator whose jar holds a cookie containing a
template expression. -/
def taggedJarFn : String → CookieJar :=
  fun wid => { parentId := wid, cookies := ["sid=\x7b\x7bhost\x7d\x7d"] }

/-- C1: submitting while `readyState` is false, when interpolation succeeds,
dispatches exactly one connect command, whose URL is the join of the
interpolated base URL with the query string built from the interpolated
enabled parameters. -/
theorem submit_closed_success_connects (request : Request)
    (environmentId workspaceId urlField : String) (jarFn : String → CookieJar)
    (render : Request → String → RenderPayload → Option RenderedRequest)
    (rendered : RenderedRequest)
    (h : render request environmentId (renderPayload request (jarFn workspaceId)) = some rendered) :
    (handleSubmit false request environmentId workspaceId jarFn render urlField).commands =
      [Command.connect
        { url := joinUrlAndQueryString rendered.url
            (buildQueryStringFromParams rendered.parameters)
          headers := rendered.headers
          authentication := rendered.authentication
          cookieJar := rendered.workspaceCookieJar
          suppressUserAgent := rendered.suppressUserAgent }] := by
  simp [handleSubmit, h]

/-- C1 witness: the spec's example. Request url
`wss://\x7b\x7bhost\x7d\x7d/chat` with parameters `id=1` (enabled) and
`dbg=1` (disabled), environment `host → example.com`: the one dispatched
connect command has URL `wss://example.com/chat?id=1`. -/
theorem submit_closed_success_connects_witness :
    renderWithEnv exampleEnv exampleRequest "env_1"
        (renderPayload exampleRequest (exampleJarFn "ws_1")) = some exampleRendered
    ∧ (handleSubmit false exampleRequest "env_1" "ws_1" exampleJarFn
        (renderWithEnv exampleEnv) "wss://\x7b\x7bhost\x7d\x7d/chat").commands =
      [Command.connect
        { url := "wss://example.com/chat?id=1"
          headers := []
          authentication := ""
          cookieJar := { parentId := "ws_1", cookies := [] }
          suppressUserAgent := false }] :=
  ⟨by decide, by
    have h := submit_closed_success_connects exampleRequest "env_1" "ws_1"
      "wss://\x7b\x7bhost\x7d\x7d/chat" exampleJarFn (renderWithEnv exampleEnv)
      exampleRendered (by decide)
    rw [h]
    decide⟩

/-- C2: submitting while `readyState` is true dispatches exactly one close
command addressed by the request's identifier, zero connect commands, and
never invokes interpolation — for every request, jar collaborator and
interpolation collaborator. -/
theorem submit_open_closes (request : Request) (environmentId workspaceId urlField : String)
    (jarFn : String → CookieJar)
    (render : Request → String → RenderPayload → Option RenderedRequest) :
    handleSubmit true request environmentId workspaceId jarFn render urlField =
      { commands := [Command.close request.reqId]
        errorReports := 0
        interpolationCalls := 0
        request := request
        urlField := urlField } := rfl

/-- C3: submitting while `readyState` is false, when interpolation fails,
dispatches zero commands, produces exactly one error report, and leaves the
URL field (and the request) unchanged. -/
theorem submit_render_failure_aborts (request : Request)
    (environmentId workspaceId urlField : String) (jarFn : String → CookieJar)
    (render : Request → String → RenderPayload → Option RenderedRequest)
    (h : render request environmentId (renderPayload request (jarFn workspaceId)) = none) :
    handleSubmit false request environmentId workspaceId jarFn render urlField =
      { commands := []
        errorReports := 1
        interpolationCalls := 1
        request := request
        urlField := urlField } := by
  simp [handleSubmit, h]

/-- C3 witness: a concrete failing interpolation on the example request
dispatches nothing, reports one error and preserves the URL field text. -/
theorem submit_render_failure_aborts_witness :
    failRender exampleRequest "env_1" (renderPayload exampleRequest (exampleJarFn "ws_1")) = none
    ∧ handleSubmit false exampleRequest "env_1" "ws_1" exampleJarFn failRender
        "wss://\x7b\x7bhost\x7d\x7d/chat" =
      { commands := []
        errorReports := 1
        interpolationCalls := 1
        request := exampleRequest
        urlField := "wss://\x7b\x7bhost\x7d\x7d/chat" } :=
  ⟨rfl, submit_render_failure_aborts exampleRequest "env_1" "ws_1"
    "wss://\x7b\x7bhost\x7d\x7d/chat" exampleJarFn failRender rfl⟩

/-- C4: only parameters with `disabled = false` reach interpolation (every
parameter of the payload handed to the render collaborator is enabled), and
the query string of the dispatched connect command is built exclusively from
the interpolated enabled parameters
(`request.parameters.filter (fun p => !p.disabled)`). -/
theorem disabled_params_never_reach_query (request : Request)
    (env : List (String × String)) (environmentId workspaceId urlField : String)
    (jarFn : String → CookieJar) :
    ((renderPayload request (jarFn workspaceId)).parameters.all (fun p => !p.disabled)) = true
    ∧ (handleSubmit false request environmentId workspaceId jarFn (renderWithEnv env)
        urlField).commands.map Command.urlOf =
      [some (joinUrlAndQueryString (interpolateString env request.url)
        (buildQueryStringFromParams
          ((request.parameters.filter (fun p => !p.disabled)).map (interpolateParam env))))] := by
  constructor
  · simp [renderPayload, List.all_eq_true, List.mem_filter]
  · simp [handleSubmit, renderWithEnv, renderPayload, Command.urlOf]

/-- C5 counterexample: when `readyState` is false and interpolation fails,
zero commands are dispatched, so a submit invocation does not always issue
exactly one of the connect and close commands. -/
theorem submit_not_always_one_command :
    (handleSubmit false exampleRequest "env_1" "ws_1" exampleJarFn failRender
      "wss://\x7b\x7bhost\x7d\x7d/chat").commands.length ≠ 1 := by decide

/-- C5 (amended): at most one command is dispatched per submit invocation,
and any dispatched command's kind is determined solely by the readiness
flag: it is a close command exactly when `readyState` is true (and hence a
connect command exactly when it is false). -/
theorem submit_at_most_one_command (isOpen : Bool) (request : Request)
    (environmentId workspaceId urlField : String) (jarFn : String → CookieJar)
    (render : Request → String → RenderPayload → Option RenderedRequest) :
    (handleSubmit isOpen request environmentId workspaceId jarFn render urlField).commands.length ≤ 1
    ∧ (handleSubmit isOpen request environmentId workspaceId jarFn render urlField).commands.all
        (fun c => c.isClose == isOpen) = true := by
  cases isOpen
  · cases hr : render request environmentId (renderPayload request (jarFn workspaceId)) <;>
      simp [handleSubmit, hr, Command.isClose]
  · simp [handleSubmit, Command.isClose]

/-- C6 counterexample: the cookie jar travels through the interpolation step
(the source comment says cookies are rendered too), so when the fetched jar
holds a cookie containing a template expression, the connect command's jar
is the interpolated jar and differs from the jar returned by
`getOrCreateForParentId`. -/
theorem connect_cookiejar_not_verbatim :
    (handleSubmit false exampleRequest "env_1" "ws_1" taggedJarFn (renderWithEnv exampleEnv)
        "wss://\x7b\x7bhost\x7d\x7d/chat").commands.map Command.cookieJarOf ≠
      [some (taggedJarFn "ws_1")]
    ∧ (handleSubmit false exampleRequest "env_1" "ws_1" taggedJarFn (renderWithEnv exampleEnv)
        "wss://\x7b\x7bhost\x7d\x7d/chat").commands.map Command.cookieJarOf =
      [some { parentId := "ws_1", cookies := ["sid=example.com"] }] := by
  exact ⟨by decide, by decide⟩

/-- C6 (amended): the connect command's cookie jar is the interpolation
output's jar field; whenever interpolation leaves the fetched jar unchanged
(it contains no template expressions), the jar is passed through unmodified
and the command's jar equals the jar returned by `getOrCreateForParentId`. -/
theorem connect_cookiejar_passthrough (request : Request) (env : List (String × String))
    (environmentId workspaceId urlField : String) (jarFn : String → CookieJar)
    (h : interpolateJar env (jarFn workspaceId) = jarFn workspaceId) :
    (handleSubmit false request environmentId workspaceId jarFn (renderWithEnv env)
      urlField).commands.map Command.cookieJarOf = [some (jarFn workspaceId)] := by
  simp [handleSubmit, renderWithEnv, renderPayload, Command.cookieJarOf, h]

/-- C6 witness: on the example request with a tag-free jar, the dispatched
connect command carries exactly the fetched workspace jar. -/
theorem connect_cookiejar_passthrough_witness :
    interpolateJar exampleEnv (exampleJarFn "ws_1") = exampleJarFn "ws_1"
    ∧ (handleSubmit false exampleRequest "env_1" "ws_1" exampleJarFn (renderWithEnv exampleEnv)
        "wss://\x7b\x7bhost\x7d\x7d/chat").commands.map Command.cookieJarOf =
      [some (exampleJarFn "ws_1")] :=
  ⟨by decide, connect_cookiejar_passthrough exampleRequest exampleEnv "env_1" "ws_1"
    "wss://\x7b\x7bhost\x7d\x7d/chat" exampleJarFn (by decide)⟩

/-- C7: an edit of the URL field forwards the raw new text unchanged through
the `onChange` prop, performs no interpolation, reports no error and
dispatches no command. -/
theorem url_edit_forwards_raw_text (newText : String) :
    handleUrlEdit newText =
      { forwarded := newText
        commands := []
        errorReports := 0
        interpolationCalls := 0 } := rfl

/-- C8: a submit invocation never mutates the stored request: on the close
path, the connect path and the interpolation-failure path alike, the request
(all of its fields: identifier, URL template, headers, authentication,
parameters, suppress-user-agent flag) is the same after `handleSubmit` as
before, for every collaborator. -/
theorem submit_request_unmodified (isOpen : Bool) (request : Request)
    (environmentId workspaceId urlField : String) (jarFn : String → CookieJar)
    (render : Request → String → RenderPayload → Option RenderedRequest) :
    (handleSubmit isOpen request environmentId workspaceId jarFn render urlField).request =
      request := by
  cases isOpen
  · cases hr : render request environmentId (renderPayload request (jarFn workspaceId)) <;>
      simp [handleSubmit, hr]
  · simp [handleSubmit]

/-- C9: whenever `readyState` is true, the rendered view marks the URL editor
read-only (`readOnly={readyState}`), so no URL edit can occur and the
`onChange` callback cannot fire while the connection is open. -/
theorem editor_readonly_when_open (readyState : Bool) (defaultValue : String)
    (h : readyState = true) :
    (actionBarView readyState defaultValue).editorReadOnly = true := by
  subst h
  rfl

/-- C9 witness: with the connection open, the example view's editor is
read-only. -/
theorem editor_readonly_when_open_witness :
    true = true ∧ (actionBarView true "wss://example.com/chat").editorReadOnly = true :=
  ⟨rfl, editor_readonly_when_open true "wss://example.com/chat" rfl⟩

/-- The rendered request used to exercise a suppress-user-agent flag that
differs from the request's own. -/
def renderedWithSuppress : RenderedRequest :=
  { exampleRendered with suppressUserAgent := true }

/-- C10: the suppress-user-agent flag of the dispatched connect command is
taken from the interpolation output (`rendered.suppressUserAgent`), and the
payload handed to interpolation carries no suppress-user-agent field: it is
unchanged when the request's own flag is flipped. -/
theorem connect_suppress_from_rendered (request : Request) (b : Bool)
    (environmentId workspaceId urlField : String) (jarFn : String → CookieJar)
    (render : Request → String → RenderPayload → Option RenderedRequest)
    (rendered : RenderedRequest)
    (h : render request environmentId (renderPayload request (jarFn workspaceId)) = some rendered) :
    (handleSubmit false request environmentId workspaceId jarFn render urlField).commands.map
      Command.suppressOf = [some rendered.suppressUserAgent]
    ∧ renderPayload { request with suppressUserAgent := b } (jarFn workspaceId) =
      renderPayload request (jarFn workspaceId) := by
  constructor
  · simp [handleSubmit, h, Command.suppressOf]
  · rfl

/-- C10 witness: the example request has the flag off, the interpolation
output has it on, and the dispatched connect command carries the output's
value, not the request's. -/
theorem connect_suppress_from_rendered_witness :
    constRender renderedWithSuppress exampleRequest "env_1"
        (renderPayload exampleRequest (exampleJarFn "ws_1")) = some renderedWithSuppress
    ∧ ((handleSubmit false exampleRequest "env_1" "ws_1" exampleJarFn
          (constRender renderedWithSuppress) "wss://\x7b\x7bhost\x7d\x7d/chat").commands.map
        Command.suppressOf = [some true]
      ∧ renderPayload { exampleRequest with suppressUserAgent := true } (exampleJarFn "ws_1") =
        renderPayload exampleRequest (exampleJarFn "ws_1"))
    ∧ exampleRequest.suppressUserAgent = false :=
  ⟨rfl,
   connect_suppress_from_rendered exampleRequest true "env_1" "ws_1"
     "wss://\x7b\x7bhost\x7d\x7d/chat" exampleJarFn (constRender renderedWithSuppress)
     renderedWithSuppress rfl,
   by decide⟩
